import Mathlib

/-!
Shallow embedding of the queue/worker coordination engine and the
streaming download pipeline of the DownOnSpot repository
(src/downloader.rs, with src/main.rs and src/spotify.rs as callers).

Conventions of the embedding:
* Rust `usize`/`u64` sizes and byte counts are `Nat` (the byte counters of a
  single download never approach 2^64); Rust `i64` ids are `Int` (ids start
  at 0 and grow by 1 per enqueued item, far from overflow).
* Fallible Rust code (`Result<_, SpotifyError>`, panics from `.unwrap()`)
  is `Except SpotifyError _` respectively `Option _` (`Option.none` models a
  panic of the actor thread).
* The async channels of downloader.rs are modelled explicitly in the system
  state: the bounded(1) job channel `downloader_tx` is an `Option DownloadJob`
  slot, and the event channel feeding `communication_thread` is the actor's
  mailbox list.  External I/O (Spotify API, filesystem, the encrypted audio
  stream) enters through explicit environment records whose fields are the
  results the collaborators return.
-/

set_option maxRecDepth 8192

namespace DownOnSpot

/-- `DownloadState` from downloader.rs (lines 1000-1008): the per-entry
state machine of the queue.  `downloading read total` carries the two
`usize` counters of `Downloading(usize, usize)`. -/
inductive DownloadState where
  | none
  | lock
  | downloading (read : Nat) (total : Nat)
  | post
  | done
  | error (msg : String)
  deriving DecidableEq, Repr

/-- `Download` from downloader.rs (lines 922-929): one queue entry. -/
structure Download where
  id : Int
  track_id : String
  title : String
  subtitle : String
  state : DownloadState
  deriving DecidableEq, Repr

/-- `DownloadJob` from downloader.rs (lines 899-903): the projection of a
`Download` handed from the queue actor to the worker pool. -/
structure DownloadJob where
  id : Int
  track_id : String
  deriving DecidableEq, Repr

/-- `impl From<Download> for DownloadJob` (downloader.rs lines 991-998). -/
def Download.toJob (d : Download) : DownloadJob :=
  { id := d.id, track_id := d.track_id }

/-- `Quality` from downloader.rs (lines 1010-1017). -/
inductive Quality where
  | q320
  | q256
  | q160
  | q96
  deriving DecidableEq, Repr

/-- The librespot `FileFormat` variants matched in downloader.rs
(lines 848-867): the concrete encoded variants a track can offer. -/
inductive FileFormat where
  | OGG_VORBIS_96
  | OGG_VORBIS_160
  | OGG_VORBIS_320
  | MP3_256
  | MP3_320
  | MP3_160
  | MP3_96
  | MP3_160_ENC
  | MP4_128_DUAL
  | OTHER3
  | AAC_160
  | AAC_320
  | MP4_128
  | OTHER5
  deriving DecidableEq, Repr

/-- `AudioFormat` from downloader.rs (lines 825-832). -/
inductive AudioFormat where
  | ogg
  | aac
  | mp3
  | mp4
  | unknown
  deriving DecidableEq, Repr

/-- `AudioFormat::extension` (downloader.rs lines 836-845). -/
def AudioFormat.extension : AudioFormat → String
  | AudioFormat.ogg => "ogg"
  | AudioFormat.aac => "m4a"
  | AudioFormat.mp3 => "mp3"
  | AudioFormat.mp4 => "mp4"
  | AudioFormat.unknown => ""

/-- `impl From<FileFormat> for AudioFormat` (downloader.rs lines 848-867). -/
def fileFormatToAudioFormat : FileFormat → AudioFormat
  | FileFormat.OGG_VORBIS_96 => AudioFormat.ogg
  | FileFormat.OGG_VORBIS_160 => AudioFormat.ogg
  | FileFormat.OGG_VORBIS_320 => AudioFormat.ogg
  | FileFormat.MP3_256 => AudioFormat.mp3
  | FileFormat.MP3_320 => AudioFormat.mp3
  | FileFormat.MP3_160 => AudioFormat.mp3
  | FileFormat.MP3_96 => AudioFormat.mp3
  | FileFormat.MP3_160_ENC => AudioFormat.mp3
  | FileFormat.MP4_128_DUAL => AudioFormat.mp4
  | FileFormat.OTHER3 => AudioFormat.unknown
  | FileFormat.AAC_160 => AudioFormat.aac
  | FileFormat.AAC_320 => AudioFormat.aac
  | FileFormat.MP4_128 => AudioFormat.mp4
  | FileFormat.OTHER5 => AudioFormat.unknown

/-- `Quality::get_file_formats` (downloader.rs lines 871-886): the
priority-ordered list of acceptable encoded variants per tier. -/
def Quality.get_file_formats : Quality → List FileFormat
  | Quality.q320 =>
      [FileFormat.OGG_VORBIS_320, FileFormat.AAC_320, FileFormat.MP3_320]
  | Quality.q256 => [FileFormat.MP3_256]
  | Quality.q160 =>
      [FileFormat.OGG_VORBIS_160, FileFormat.AAC_160, FileFormat.MP3_160]
  | Quality.q96 => [FileFormat.OGG_VORBIS_96, FileFormat.MP3_96]

/-- `Quality::fallback` (downloader.rs lines 889-896): single step down the
tier ladder. -/
def Quality.fallback : Quality → Option Quality
  | Quality.q320 => some Quality.q256
  | Quality.q256 => some Quality.q160
  | Quality.q160 => some Quality.q96
  | Quality.q96 => Option.none

/-- `DownloaderConfig` from downloader.rs (lines 1031-1044). -/
structure DownloaderConfig where
  concurrent_downloads : Nat
  quality : Quality
  path : String
  filename_template : String
  id3v24 : Bool
  convert_to_mp3 : Bool
  separator : String
  skip_existing : Bool
  download_lrc : Bool
  sp_dc : String
  enhanced_lrc : Bool
  deriving DecidableEq, Repr

/-- `DownloaderConfig::new` (downloader.rs lines 1048-1062): the default
configuration. -/
def DownloaderConfig.new : DownloaderConfig where
  concurrent_downloads := 4
  quality := Quality.q320
  path := "downloads"
  filename_template := "%artist% - %title%"
  id3v24 := true
  convert_to_mp3 := false
  separator := ", "
  skip_existing := true
  download_lrc := false
  sp_dc := "https://github.com/akashrchandran/syrics/wiki/Finding-sp_dc"
  enhanced_lrc := true

/-- `SpotifyError` (crate::error).  src/error.rs is not among the provided
sources; the variants are reconstructed from their use sites in the provided
files (`InvalidUri` in spotify.rs; `Unavailable`, `AlreadyDownloaded` and
`Error(String)` in downloader.rs) and from the error taxonomy of the
specification.  Upstream network/IO errors arriving through `From`
conversions are folded into the `error msg` variant; no claim depends on
which wrapped variant a network failure maps to. -/
inductive SpotifyError where
  | invalidUri
  | unavailable
  | alreadyDownloaded
  | error (msg : String)
  deriving DecidableEq, Repr

/-- Modelled from the spec: the `Display` implementation used by
`e.to_string()` in `download_job_wrapper` lives in src/error.rs, which is
not among the provided sources.  Only the fact that every error variant is
flattened to SOME string matters to the claims; the concrete strings are
placeholders derived from the spec's error taxonomy. -/
def spotifyErrorToString : SpotifyError → String
  | SpotifyError.invalidUri => "Invalid URI"
  | SpotifyError.unavailable => "Unavailable"
  | SpotifyError.alreadyDownloaded => "Already downloaded"
  | SpotifyError.error msg => msg

/-- `tryFormats files formats` is one pass of the inner `for format in
quality.get_file_formats()` loop of `download_track` (downloader.rs lines
663-670): scan the tier's formats in priority order and return the first
`(file_id, format)` hit in the track's `files` map.  The librespot
`HashMap<FileFormat, FileId>` is modelled as an association list; `FileId`
is modelled as `Nat`. -/
def tryFormats (files : List (FileFormat × Nat)) :
    List FileFormat → Option (Nat × FileFormat)
  | [] => Option.none
  | f :: rest =>
      match files.lookup f with
      | some fid => some (fid, f)
      | Option.none => tryFormats files rest

/-- The quality fallback loop `'outer: loop` of `download_track`
(downloader.rs lines 662-677), written with explicit fuel so that the
definition evaluates inside the kernel: the fallback chain
q320 → q256 → q160 → q96 has length at most 4, so fuel 4 (supplied by
`bestMatch`) never runs out; the fuel-0 branch is unreachable from
`bestMatch`.  Returns `(file_id, file_format, quality-used)` of the first
hit, scanning the requested tier's formats in priority order and falling
back one tier at a time. -/
def bestMatchF (files : List (FileFormat × Nat)) :
    Nat → Quality → Option (Nat × FileFormat × Quality)
  | 0, _ => Option.none
  | n + 1, q =>
      match tryFormats files q.get_file_formats with
      | some (fid, f) => some (fid, f, q)
      | Option.none =>
          match q.fallback with
          | some q' => bestMatchF files n q'
          | Option.none => Option.none

/-- The quality resolution of `download_track` (downloader.rs lines
659-680), named `best_match` by the specification: starting at the
configured tier, find the first offered format walking down the ladder. -/
def bestMatch (q : Quality) (files : List (FileFormat × Nat)) :
    Option (Nat × FileFormat × Quality) :=
  bestMatchF files 4 q

/-- Spec-side definition (for the refinement claim about the quality
ladder): the fixed tier order `Q320 → Q256 → Q160 → Q96` called out by the
specification as "fixed data, not computed". -/
def specTierOrder : List Quality :=
  [Quality.q320, Quality.q256, Quality.q160, Quality.q96]

/-- Spec-side definition: the tail of the fixed tier order starting at the
requested tier ("starting at the configured tier and stepping down the
fixed tier order"). -/
def specChain : Quality → List Quality
  | Quality.q320 => [Quality.q320, Quality.q256, Quality.q160, Quality.q96]
  | Quality.q256 => [Quality.q256, Quality.q160, Quality.q96]
  | Quality.q160 => [Quality.q160, Quality.q96]
  | Quality.q96 => [Quality.q96]

/-- Spec-side definition: quality resolution as the specification words it —
a single ordered linear scan over the fixed tier chain, trying each tier's
formats in that tier's fixed priority order, stopping at the first hit. -/
def specScan (q : Quality) (files : List (FileFormat × Nat)) :
    Option (Nat × FileFormat × Quality) :=
  (specChain q).findSome? fun t =>
    (tryFormats files t.get_file_formats).map fun p => (p.1, p.2, t)

/-- `Message` from downloader.rs (lines 905-915): the commands of the queue
actor `communication_thread`. -/
inductive Message where
  | getJob
  | updateState (id : Int) (state : DownloadState)
  | addToQueue (downloads : List Download)
  | getDownloads
  deriving DecidableEq, Repr

/-- The outputs one message-handling iteration of `communication_thread` can
emit: a `DownloaderMessage::Job(job, config)` on `downloader_tx`
(downloader.rs lines 148-151, 185-188) or a `Response::Downloads` snapshot
on the response channel (line 193). -/
inductive ActorOutput where
  | job (j : DownloadJob) (cfg : DownloaderConfig)
  | downloads (snapshot : List Download)
  deriving DecidableEq, Repr

/-- The local state of `communication_thread` (downloader.rs lines 138-139):
the queue list and the `waiting_for_job` flag. -/
structure ActorState where
  queue : List Download
  waiting : Bool
  deriving DecidableEq, Repr

/-- `queue.iter().map(|i| i.id).max().unwrap_or(0)` from the
`Message::AddToQueue` arm (downloader.rs line 167). -/
def queueMaxId (q : List Download) : Int :=
  ((q.map fun d => d.id).max?).getD 0

/-- The id-assigning map of the `Message::AddToQueue` arm (downloader.rs
lines 168-176): each incoming download gets the running counter as id (the
counter STARTS at the current maximum — `d.id = id` happens before
`id += 1`) and its state reset to `None`. -/
def assignIds (start : Int) : List Download → List Download
  | [] => []
  | d :: rest =>
      { d with id := start, state := DownloadState.none } ::
        assignIds (start + 1) rest

/-- `queue.iter_mut().find(|i| i.state == DownloadState::None)` followed by
`d.state = DownloadState::Lock` and `d.clone().into()` (downloader.rs lines
146-149 and 180-186): lock the first entry in state `None`, returning the
job projection and the updated queue; `Option.none` when no entry is in
state `None`. -/
def lockFirstNone : List Download → Option (DownloadJob × List Download)
  | [] => Option.none
  | d :: rest =>
      if d.state = DownloadState.none then
        some (d.toJob, { d with state := DownloadState.lock } :: rest)
      else
        match lockFirstNone rest with
        | some (j, rest') => some (j, d :: rest')
        | Option.none => Option.none

/-- The body of the `Message::UpdateState` arm (downloader.rs lines
158-164): find the FIRST entry whose id matches (`position`), overwrite its
state, and remove it when the new state is `Done`.  `Option.none` models
the `.unwrap()` panic when no entry has the id. -/
def updateStateInQueue : List Download → Int → DownloadState →
    Option (List Download)
  | [], _, _ => Option.none
  | d :: rest, id, s =>
      if d.id = id then
        some (if s = DownloadState.done
              then rest
              else { d with state := s } :: rest)
      else
        (updateStateInQueue rest id s).map fun rest' => d :: rest'

/-- One iteration of the `communication_thread` message loop (downloader.rs
lines 142-196), as a pure step: given the actor state and one received
message, return the new state and the outputs sent, or `Option.none` when
the iteration panics (the `.unwrap()` on a missing id in `UpdateState`, or
the `.unwrap()` in the `AddToQueue` arm when `waiting_for_job` is set but
the extended queue still has no `None` entry). -/
def actorStep (cfg : DownloaderConfig) (st : ActorState) :
    Message → Option (ActorState × List ActorOutput)
  | Message.getJob =>
      match lockFirstNone st.queue with
      | some (j, q') =>
          some ({ queue := q', waiting := false }, [ActorOutput.job j cfg])
      | Option.none =>
          some ({ queue := st.queue, waiting := true }, [])
  | Message.updateState id s =>
      (updateStateInQueue st.queue id s).map fun q' =>
        ({ queue := q', waiting := st.waiting }, [])
  | Message.addToQueue ds =>
      let q' := st.queue ++ assignIds (queueMaxId st.queue) ds
      if st.waiting then
        match lockFirstNone q' with
        | some (j, q'') =>
            some ({ queue := q'', waiting := false }, [ActorOutput.job j cfg])
        | Option.none => Option.none
      else
        some ({ queue := q', waiting := st.waiting }, [])
  | Message.getDownloads =>
      some ({ queue := st.queue, waiting := st.waiting },
            [ActorOutput.downloads st.queue])

/-- Run the actor over a list of messages in order, collecting all outputs;
`Option.none` as soon as one iteration panics. -/
def actorRun (cfg : DownloaderConfig) :
    ActorState → List Message → Option (ActorState × List ActorOutput)
  | st, [] => some (st, [])
  | st, m :: rest =>
      match actorStep cfg st m with
      | Option.none => Option.none
      | some (st', outs) =>
          match actorRun cfg st' rest with
          | Option.none => Option.none
          | some (st'', outs') => some (st'', outs ++ outs')

/-- One running `download_job_wrapper` task inside the pool's
`FuturesUnordered` (downloader.rs lines 226, 234, 244).  What a running job
does to the queue is send `UpdateState` messages and finally resolve;
`script` is the list of states the task will still report, in order (its
last element is the terminal `Done` or `Error` report, sent before the
future resolves).  The script is chosen nondeterministically at spawn time,
abstracting the network/filesystem behaviour of the job. -/
structure RunnerTask where
  id : Int
  script : List DownloadState
  deriving DecidableEq, Repr

/-- The combined state of the queue actor, the channels between actor and
pool, and the pool loop `download_loop` (downloader.rs lines 224-250):
* `actor`      — queue list + `waiting_for_job` of `communication_thread`;
* `jobChan`    — the bounded(1) channel `downloader_tx` (`None` = empty);
* `pendingGet` — the pool has sent `Message::GetJob` and its `get_job`
                 future is awaiting the reply (at most one outstanding);
* `msgs`       — mailbox of the actor's receiver (sends from `get_job` and
                 from running tasks are serialized here; modelling the
                 bounded(1) event channel as an unbounded FIFO only adds
                 interleavings, all real executions are included);
* `tasks`      — the `FuturesUnordered` of running jobs;
* `overflow`   — the pool-local `queue` of jobs accepted while full
                 (downloader.rs lines 225, 236, 243-246). -/
structure SysState where
  actor : ActorState
  jobChan : Option DownloadJob
  pendingGet : Bool
  msgs : List Message
  tasks : List RunnerTask
  overflow : List DownloadJob
  deriving Repr

/-- Deliver the outputs of one actor iteration: a `Job` goes into the
bounded(1) job channel (the send blocks — the transition is disabled — if
the slot is full), a `Downloads` snapshot goes to the UI and is dropped
here. -/
def sendOutputs (chan : Option DownloadJob) :
    List ActorOutput → Option (Option DownloadJob)
  | [] => some chan
  | ActorOutput.job j _ :: rest =>
      match chan with
      | Option.none => sendOutputs (some j) rest
      | some _ => Option.none
  | ActorOutput.downloads _ :: rest => sendOutputs chan rest

/-- Small-step transition relation of the queue/worker system.  `cfg` is the
single `DownloaderConfig` that `communication_thread` owns and clones into
every `DownloaderMessage::Job` (downloader.rs lines 149, 186), so the limit
`config.concurrent_downloads` read by `download_loop` (line 233) is `cfg`'s.
The steps:
* `enqueue` / `askDownloads` — a caller sends `AddToQueue` / `GetDownloads`
  through the `Downloader` facade (downloader.rs lines 53-63, 118-122);
* `askJob` — the pool's `get_job` sends `Message::GetJob` and starts
  awaiting the reply (lines 253-258); re-armed after every received job
  (line 239);
* `actorRecv` — the actor processes the next mailbox message (lines
  142-196);
* `poolRecvRun` / `poolRecvOverflow` — `download_loop` receives the job:
  start it if the active set is below the limit, else push it to the
  overflow queue (lines 231-240);
* `taskEmit` — a running task sends its next `UpdateState` report;
* `taskDoneIdle` / `taskDonePop` — a task with nothing left to report
  resolves (`tasks.select_next_some()`), and the head of the overflow
  queue, if any, is started in the freed slot (lines 242-247). -/
inductive Step (cfg : DownloaderConfig) : SysState → SysState → Prop where
  | enqueue (s : SysState) (ds : List Download) :
      Step cfg s { s with msgs := s.msgs ++ [Message.addToQueue ds] }
  | askDownloads (s : SysState) :
      Step cfg s { s with msgs := s.msgs ++ [Message.getDownloads] }
  | askJob (s : SysState) (h : s.pendingGet = false) :
      Step cfg s
        { s with msgs := s.msgs ++ [Message.getJob], pendingGet := true }
  | actorRecv (s : SysState) (m : Message) (rest : List Message)
      (st' : ActorState) (outs : List ActorOutput)
      (chan' : Option DownloadJob)
      (hm : s.msgs = m :: rest)
      (ha : actorStep cfg s.actor m = some (st', outs))
      (hc : sendOutputs s.jobChan outs = some chan') :
      Step cfg s { s with actor := st', msgs := rest, jobChan := chan' }
  | poolRecvRun (s : SysState) (j : DownloadJob)
      (script : List DownloadState)
      (hj : s.jobChan = some j) (hp : s.pendingGet = true)
      (hlt : s.tasks.length < cfg.concurrent_downloads) :
      Step cfg s
        { s with jobChan := Option.none, pendingGet := false,
                 tasks := s.tasks ++ [{ id := j.id, script := script }] }
  | poolRecvOverflow (s : SysState) (j : DownloadJob)
      (hj : s.jobChan = some j) (hp : s.pendingGet = true)
      (hge : ¬ s.tasks.length < cfg.concurrent_downloads) :
      Step cfg s
        { s with jobChan := Option.none, pendingGet := false,
                 overflow := s.overflow ++ [j] }
  | taskEmit (s : SysState) (i : Nat) (t : RunnerTask)
      (upd : DownloadState) (rest : List DownloadState)
      (ht : s.tasks[i]? = some t) (hs : t.script = upd :: rest) :
      Step cfg s
        { s with msgs := s.msgs ++ [Message.updateState t.id upd],
                 tasks := s.tasks.set i { id := t.id, script := rest } }
  | taskDoneIdle (s : SysState) (i : Nat) (t : RunnerTask)
      (ht : s.tasks[i]? = some t) (hs : t.script = [])
      (ho : s.overflow = []) :
      Step cfg s { s with tasks := s.tasks.eraseIdx i }
  | taskDonePop (s : SysState) (i : Nat) (t : RunnerTask)
      (j : DownloadJob) (orest : List DownloadJob)
      (script : List DownloadState)
      (ht : s.tasks[i]? = some t) (hs : t.script = [])
      (ho : s.overflow = j :: orest) :
      Step cfg s
        { s with
            tasks := s.tasks.eraseIdx i ++ [{ id := j.id, script := script }],
            overflow := orest }

/-- The initial state: empty queue, empty channels, no running tasks
(downloader.rs lines 138-139, 225-227). -/
def sysInit : SysState where
  actor := { queue := [], waiting := false }
  jobChan := Option.none
  pendingGet := false
  msgs := []
  tasks := []
  overflow := []

/-- A state of the queue/worker system reachable from startup. -/
def Reachable (cfg : DownloaderConfig) (s : SysState) : Prop :=
  Relation.ReflTransGen (Step cfg) sysInit s

/-- Whether a queue entry is in one of the worker-occupying states
`Lock`/`Downloading`/`Post`. -/
def DownloadState.isActive : DownloadState → Bool
  | DownloadState.lock => true
  | DownloadState.downloading _ _ => true
  | DownloadState.post => true
  | _ => false

/-- Number of queue entries in state `Lock`, `Downloading` or `Post`. -/
def countActive (q : List Download) : Nat :=
  (q.filter fun d => d.state.isActive).length

/-- Number of queue entries in state `None` (awaiting dispatch). -/
def countNone (q : List Download) : Nat :=
  (q.filter fun d => d.state = DownloadState.none).length

/-- Floor of log base 2, by explicit fuel (`log2Fuel fuel n` is correct for
`0 < n < 2 ^ fuel`): the fuel keeps the recursion structural so the kernel
can evaluate it on literals. -/
def log2Fuel : Nat → Nat → Nat
  | 0, _ => 0
  | fuel + 1, n => if n < 2 then 0 else log2Fuel fuel (n / 2) + 1

/-- Floor of log base 2 for every argument below `2 ^ 128` — the entire
finite range of an IEEE-754 binary32 value, which covers every number the
throttle computation can produce (at most `1000 * (2^64 - 1) < 2^74`). -/
def natLog2 (n : Nat) : Nat :=
  log2Fuel 128 n

/-- IEEE-754 binary32 (`f32`) rounding of a natural number, round to
nearest, ties to even: a binary32 has a 24-bit significand, so every
natural below `2 ^ 24` is exact, and a larger `x` is rounded to the nearest
multiple of the unit in the last place `u = 2 ^ (log2 x - 23)`, halfway
cases going to the even quotient.  (Overflow to infinity starts at `2 ^ 128`
and is irrelevant here, see `natLog2`.) -/
def f32round (x : Nat) : Nat :=
  if x < 2 ^ 24 then x
  else
    let u := 2 ^ (natLog2 x - 23)
    let q := x / u
    let r := x % u
    if r < u / 2 then q * u
    else if u / 2 < r then (q + 1) * u
    else if q % 2 = 0 then q * u else (q + 1) * u

/-- The self-throttling delay of `download_job_wrapper` (downloader.rs lines
273-277):
`((((1.0/(max_requests_per_min/60.0)) * 1000.0) * (num_downloads as f32)) as f32) as u64`
with `max_requests_per_min = 60.0`, computed in `f32`.  `60.0/60.0 = 1.0`,
`1.0/1.0 = 1.0` and `1.0*1000.0 = 1000.0` are exact in binary32, so the
value is the correctly rounded product `1000 * (num_downloads as f32)`; the
final `as u64` truncates (the value is integral) and saturates at
`u64::MAX`, modelled by the `min`. -/
def throttleTimeout (num_downloads : Nat) : Nat :=
  min (f32round (1000 * f32round num_downloads)) (2 ^ 64 - 1)

/-- The chunk loop shared verbatim by `download_track_stream` (downloader.rs
lines 762-777) and `download_track_convert_stream` (lines 805-820), with
explicit fuel so the definition evaluates in the kernel (`chunkLoop` passes
`src.length`, which never runs out since every iteration consumes at least
one byte; the fuel-0-with-input branch is unreachable from `chunkLoop`).
`src` is the byte stream the loop reads from (already decrypted, and
already transcoded in the convert variant); a `read` into the 64 KiB buffer
returns `min 65536 src.length` bytes.  Returns the list of chunks written
to the output file (`file.write_all(&buf[0..read])`) and the list of
yielded counts (`yield read`), in order; the loop breaks when a read
returns 0 bytes. -/
def chunkLoopF : Nat → List Nat → List (List Nat) × List Nat
  | _, [] => ([], [])
  | 0, _ :: _ => ([], [])
  | fuel + 1, b :: src =>
      let chunk := (b :: src).take 65536
      let rest := (b :: src).drop 65536
      let out := chunkLoopF fuel rest
      (chunk :: out.1, chunk.length :: out.2)

/-- The chunk loop of the streaming pipeline, reading `src` to exhaustion. -/
def chunkLoop (src : List Nat) : List (List Nat) × List Nat :=
  chunkLoopF src.length src

/-- `download_track_stream` (downloader.rs lines 745-779) on the decrypted
byte sequence of the remote file: `AudioDecrypt` is a streaming cipher, so
the decrypted sequence has the same length as the encrypted one; the
leading `0xa7 = 167` header bytes are read and discarded by one
`read_exact` (which fails when fewer than 167 bytes exist), then the chunk
loop streams the payload.  Returns the chunks written to the output file
and the yielded per-chunk counts. -/
def downloadTrackStreamRun (decrypted : List Nat) :
    Except SpotifyError (List (List Nat) × List Nat) :=
  if decrypted.length < 167 then
    Except.error (SpotifyError.error "failed to fill whole buffer")
  else
    Except.ok (chunkLoop (decrypted.drop 167))

/-- The running `read += r` accumulator of the progress loop of
`download_track` (downloader.rs lines 722-732): the successive values of
`read` reported in `Downloading(read, size)` updates, one per yielded
chunk. -/
def runningTotals (read : Nat) : List Nat → List Nat
  | [] => []
  | r :: rest => (read + r) :: runningTotals (read + r) rest

/-- The progress loop of `download_track` (downloader.rs lines 720-739):
consume the stream's items in order; on `Ok(r)` accumulate `read += r` and
send `UpdateState(job_id, Downloading(read, size))`; on the first `Err(e)`
delete the output file (`tokio::fs::remove_file(path)`) and return the
error (items after an error are never polled — the function returns).
Returns the messages sent, the filesystem after the loop (a set of paths,
as a membership predicate) and the outcome. -/
def progressLoop (path : String) (size : Nat) (jobId : Int)
    (fs : String → Bool) (read : Nat) :
    List (Except SpotifyError Nat) →
      List Message × (String → Bool) × Except SpotifyError Unit
  | [] => ([], fs, Except.ok ())
  | Except.ok r :: rest =>
      let out := progressLoop path size jobId fs (read + r) rest
      (Message.updateState jobId
          (DownloadState.downloading (read + r) size) :: out.1,
       out.2)
  | Except.error e :: _ =>
      ([], (fun p => if p = path then false else fs p), Except.error e)

/-- The fields of a librespot `Track` that `download_track` and
`find_alternative` read (downloader.rs lines 631-640, 652-657, 664):
availability, the alternative track references, and the map from offered
`FileFormat`s to file ids. -/
structure STrack where
  available : Bool
  alternatives : List String
  files : List (FileFormat × Nat)

/-- Environment of `download_track` (downloader.rs lines 643-743): the
results its external collaborators return.  `lookupTrack` is
`SpotifyId::from_base62` + `Track::get` (a malformed id or a failed fetch is
the error case); `fs` is the filesystem as a path-membership predicate;
`audioKey` is `session.audio_key().request(...)`; `openEncrypted` is
`AudioFile::open` together with the stream length
`get_stream_loader_controller().len()`; `streamResults` is the sequence of
items the download stream yields (the per-chunk byte counts of
`download_track_stream` / `download_track_convert_stream`, or an error). -/
structure DlEnv where
  lookupTrack : String → Except SpotifyError STrack
  fs : String → Bool
  audioKey : Except SpotifyError Unit
  openEncrypted : Except SpotifyError Nat
  streamResults : List (Except SpotifyError Nat)

/-- `find_alternative` (downloader.rs lines 631-640): fetch each declared
alternative in order and return the first available one; `Unavailable` when
the list is exhausted; a failed `Track::get` propagates. -/
def findAlternative (env : DlEnv) : List String → Except SpotifyError STrack
  | [] => Except.error SpotifyError.unavailable
  | alt :: rest =>
      match env.lookupTrack alt with
      | Except.error e => Except.error e
      | Except.ok t =>
          if t.available then Except.ok t else findAlternative env rest

/-- The output path with extension (downloader.rs lines 684-692):
`format!("{}.{}", path, ...)` appending `"mp3"` when `convert_to_mp3` is
set and the natively resolved format's extension otherwise. -/
def fullPath (stem : String) (cfg : DownloaderConfig) (fmt : FileFormat) :
    String :=
  stem ++ "." ++
    (if cfg.convert_to_mp3 then "mp3"
     else (fileFormatToAudioFormat fmt).extension)

/-- `download_track` (downloader.rs lines 643-743): resolve the track (with
alternative fallback), resolve quality down the ladder, build the output
path, short-circuit with `AlreadyDownloaded` when `skip_existing` is set
and the path exists, then request the key, open the encrypted stream and
run the progress loop over the chunk stream; on a stream error the partial
file is removed and the error returned.  Returns the messages sent to the
actor, the filesystem after the call, and `(path, audio_format)` on
success (the format replaced by `Mp3` when converting, lines 705-719). -/
def downloadTrack (env : DlEnv) (id : String) (path : String)
    (cfg : DownloaderConfig) (jobId : Int) :
    List Message × (String → Bool) ×
      Except SpotifyError (String × AudioFormat) :=
  match env.lookupTrack id with
  | Except.error e => ([], env.fs, Except.error e)
  | Except.ok track0 =>
    match (if track0.available then Except.ok track0
           else findAlternative env track0.alternatives) with
    | Except.error e => ([], env.fs, Except.error e)
    | Except.ok track =>
      match bestMatch cfg.quality track.files with
      | Option.none => ([], env.fs, Except.error SpotifyError.unavailable)
      | some (_, fileFormat, _) =>
        let path2 := fullPath path cfg fileFormat
        if cfg.skip_existing && env.fs path2 then
          ([], env.fs, Except.error SpotifyError.alreadyDownloaded)
        else
          match env.audioKey with
          | Except.error e => ([], env.fs, Except.error e)
          | Except.ok _ =>
            match env.openEncrypted with
            | Except.error e => ([], env.fs, Except.error e)
            | Except.ok size =>
              let audioFormat2 :=
                if cfg.convert_to_mp3 then AudioFormat.mp3
                else fileFormatToAudioFormat fileFormat
              let fs1 := fun p => if p = path2 then true else env.fs p
              let out := progressLoop path2 size jobId fs1 0 env.streamResults
              match out.2.2 with
              | Except.error e => (out.1, out.2.1, Except.error e)
              | Except.ok _ => (out.1, out.2.1, Except.ok (path2, audioFormat2))

/-- Environment of `download_job` (downloader.rs lines 290-461): results of
the steps surrounding `download_track`.  `requestToken` is
`spotify.request_token()`; `validId` is whether `TrackId::from_id` accepts
the id; `fetchMeta` merges the rspotify track and album fetches; `pathStem`
is the result of the path/filename template substitution of lines 313-377
(pure string replacement through the external `sanitize` crate, abstracted
to its result); `createDirs` is `tokio::fs::create_dir_all`; `writeTags` is
the blocking tag-writing call; `lrcFetch` is `download_lrc`.  The cover
download failure is only logged (lines 399-404), so it needs no field. -/
structure JobEnv where
  requestToken : Except SpotifyError Unit
  validId : Bool
  fetchMeta : Except SpotifyError Unit
  pathStem : String
  createDirs : Except SpotifyError Unit
  dl : DlEnv
  writeTags : Except SpotifyError Unit
  lrcFetch : Except SpotifyError Unit

/-- `download_job` (downloader.rs lines 290-461): token, id validation,
metadata, directories, `download_track`, then the `Post` update, tag
writing, optional lyrics, and the `Done` update.  Returns the messages
sent to the actor (in order), the filesystem after the call, and the
outcome. -/
def downloadJob (jenv : JobEnv) (job : DownloadJob) (cfg : DownloaderConfig) :
    List Message × (String → Bool) × Except SpotifyError Unit :=
  match jenv.requestToken with
  | Except.error e => ([], jenv.dl.fs, Except.error e)
  | Except.ok _ =>
    if jenv.validId = false then
      ([], jenv.dl.fs, Except.error SpotifyError.unavailable)
    else
      match jenv.fetchMeta with
      | Except.error e => ([], jenv.dl.fs, Except.error e)
      | Except.ok _ =>
        match jenv.createDirs with
        | Except.error e => ([], jenv.dl.fs, Except.error e)
        | Except.ok _ =>
          let out := downloadTrack jenv.dl job.track_id jenv.pathStem cfg job.id
          match out.2.2 with
          | Except.error e => (out.1, out.2.1, Except.error e)
          | Except.ok _ =>
            let msgs2 :=
              out.1 ++ [Message.updateState job.id DownloadState.post]
            match jenv.writeTags with
            | Except.error e => (msgs2, out.2.1, Except.error e)
            | Except.ok _ =>
              if cfg.download_lrc then
                match jenv.lrcFetch with
                | Except.error e => (msgs2, out.2.1, Except.error e)
                | Except.ok _ =>
                    (msgs2 ++ [Message.updateState job.id DownloadState.done],
                     out.2.1, Except.ok ())
              else
                (msgs2 ++ [Message.updateState job.id DownloadState.done],
                 out.2.1, Except.ok ())

/-- `download_job_wrapper` (downloader.rs lines 261-287): run the job; on
`Ok` do nothing more; on `Err(e)` sleep the self-throttling delay and then
send `UpdateState(id, Error(e.to_string()))`.  The third component is the
slept duration in milliseconds (`Option.none` when the job succeeded and no
sleep happened); the error update is appended after it because the send
follows the sleep. -/
def downloadJobWrapper (jenv : JobEnv) (job : DownloadJob)
    (cfg : DownloaderConfig) :
    List Message × (String → Bool) × Option Nat :=
  let out := downloadJob jenv job cfg
  match out.2.2 with
  | Except.ok _ => (out.1, out.2.1, Option.none)
  | Except.error e =>
      (out.1 ++
         [Message.updateState job.id
            (DownloadState.error (spotifyErrorToString e))],
       out.2.1, some (throttleTimeout cfg.concurrent_downloads))

/-- Configuration with `concurrent_downloads = 2` for the three-job
scenario. -/
def c1Cfg : DownloaderConfig :=
  { DownloaderConfig.new with concurrent_downloads := 2 }

/-- First enqueued download (ids are reassigned by the actor). -/
def c1d1 : Download :=
  { id := 0, track_id := "t1", title := "T1", subtitle := "A1",
    state := DownloadState.none }

/-- Second enqueued download. -/
def c1d2 : Download :=
  { id := 0, track_id := "t2", title := "T2", subtitle := "A2",
    state := DownloadState.none }

/-- Third enqueued download. -/
def c1d3 : Download :=
  { id := 0, track_id := "t3", title := "T3", subtitle := "A3",
    state := DownloadState.none }

/-- Queue entry 0 after id assignment. -/
def c1e0 : Download :=
  { id := 0, track_id := "t1", title := "T1", subtitle := "A1",
    state := DownloadState.none }

/-- Queue entry 1 after id assignment. -/
def c1e1 : Download :=
  { id := 1, track_id := "t2", title := "T2", subtitle := "A2",
    state := DownloadState.none }

/-- Queue entry 2 after id assignment. -/
def c1e2 : Download :=
  { id := 2, track_id := "t3", title := "T3", subtitle := "A3",
    state := DownloadState.none }

/-- Queue entry 0, locked. -/
def c1e0L : Download := { c1e0 with state := DownloadState.lock }

/-- Queue entry 1, locked. -/
def c1e1L : Download := { c1e1 with state := DownloadState.lock }

/-- Queue entry 2, locked. -/
def c1e2L : Download := { c1e2 with state := DownloadState.lock }

/-- Job projection of entry 0. -/
def c1j0 : DownloadJob := { id := 0, track_id := "t1" }

/-- Job projection of entry 1. -/
def c1j1 : DownloadJob := { id := 1, track_id := "t2" }

/-- Job projection of entry 2. -/
def c1j2 : DownloadJob := { id := 2, track_id := "t3" }

/-- Trace state: the batch of 3 downloads sits in the actor's mailbox. -/
def c1S1 : SysState :=
  { actor := { queue := [], waiting := false }, jobChan := Option.none,
    pendingGet := false, msgs := [Message.addToQueue [c1d1, c1d2, c1d3]],
    tasks := [], overflow := [] }

/-- Trace state: the actor has admitted the batch (ids 0,1,2, all `None`). -/
def c1S2 : SysState :=
  { c1S1 with actor := { queue := [c1e0, c1e1, c1e2], waiting := false },
              msgs := [] }

/-- Trace state: the pool has asked for a job. -/
def c1S3 : SysState :=
  { c1S2 with msgs := [Message.getJob], pendingGet := true }

/-- Trace state: the actor has locked entry 0 and sent its job. -/
def c1S4 : SysState :=
  { c1S3 with actor := { queue := [c1e0L, c1e1, c1e2], waiting := false },
              msgs := [], jobChan := some c1j0 }

/-- Trace state: the pool has started job 0 (1 of 2 slots used). -/
def c1S5 : SysState :=
  { c1S4 with jobChan := Option.none, pendingGet := false,
              tasks := [{ id := 0, script := [DownloadState.done] }] }

/-- Trace state: the pool has asked for the next job. -/
def c1S6 : SysState :=
  { c1S5 with msgs := [Message.getJob], pendingGet := true }

/-- Trace state: the actor has locked entry 1 and sent its job. -/
def c1S7 : SysState :=
  { c1S6 with actor := { queue := [c1e0L, c1e1L, c1e2], waiting := false },
              msgs := [], jobChan := some c1j1 }

/-- Trace state: the pool has started job 1 (both slots used). -/
def c1S8 : SysState :=
  { c1S7 with jobChan := Option.none, pendingGet := false,
              tasks := [{ id := 0, script := [DownloadState.done] },
                        { id := 1, script := [DownloadState.done] }] }

/-- Trace state: the pool has asked for the next job again. -/
def c1S9 : SysState :=
  { c1S8 with msgs := [Message.getJob], pendingGet := true }

/-- Trace state: the actor has locked entry 2 and sent its job. -/
def c1S10 : SysState :=
  { c1S9 with actor := { queue := [c1e0L, c1e1L, c1e2L], waiting := false },
              msgs := [], jobChan := some c1j2 }

/-- Trace state: the pool, already full, has pushed job 2 to its overflow
queue — all three entries are `Lock`, none is `None`. -/
def c1Final : SysState :=
  { c1S10 with jobChan := Option.none, pendingGet := false,
               overflow := [c1j2] }

/-- Queue fixture for the `UpdateState` witness. -/
def c7q : List Download :=
  [{ id := 0, track_id := "a", title := "ta", subtitle := "sa",
     state := DownloadState.none },
   { id := 1, track_id := "b", title := "tb", subtitle := "sb",
     state := DownloadState.lock }]

/-- A track offering a single 320kbps Vorbis variant. -/
def c3Track : STrack :=
  { available := true, alternatives := [],
    files := [(FileFormat.OGG_VORBIS_320, 1)] }

/-- `download_track` environment in which the output file
`music/song.ogg` already exists. -/
def c3DlEnv : DlEnv :=
  { lookupTrack := fun _ => Except.ok c3Track
    fs := fun p => p == "music/song.ogg"
    audioKey := Except.ok ()
    openEncrypted := Except.ok 1000
    streamResults := [] }

/-- `download_job` environment in which every step before `download_track`
succeeds and the output file already exists. -/
def c3JobEnv : JobEnv :=
  { requestToken := Except.ok ()
    validId := true
    fetchMeta := Except.ok ()
    pathStem := "music/song"
    createDirs := Except.ok ()
    dl := c3DlEnv
    writeTags := Except.ok ()
    lrcFetch := Except.ok () }

/-- Job fixture with id 7. -/
def c3Job : DownloadJob := { id := 7, track_id := "trk" }

/-- Configuration with `skip_existing` on and `concurrent_downloads = 2`. -/
def c3Cfg : DownloaderConfig :=
  { DownloaderConfig.new with skip_existing := true,
                              concurrent_downloads := 2 }

/-- `download_track` environment whose chunk stream yields one good 5-byte
chunk and then a read error. -/
def c5DlEnv : DlEnv :=
  { lookupTrack := fun _ => Except.ok c3Track
    fs := fun _ => false
    audioKey := Except.ok ()
    openEncrypted := Except.ok 500
    streamResults := [Except.ok 5, Except.error (SpotifyError.error "io")] }

/-- `download_job` environment around `c5DlEnv`. -/
def c5JobEnv : JobEnv := { c3JobEnv with dl := c5DlEnv }

/-- `download_job` environment whose very first step (token refresh)
fails. -/
def c9JobEnv : JobEnv :=
  { c3JobEnv with requestToken := Except.error (SpotifyError.error "network") }

/-- Configuration with the absurd but representable concurrency limit
134219, the smallest whose throttle product `1000 * 134219` is not exactly
representable in binary32. -/
def c9Cfg : DownloaderConfig :=
  { DownloaderConfig.new with concurrent_downloads := 134219 }

/-- Synthetic decrypted source of 170 bytes (167 header + 3 payload) for
the streaming-pipeline witness. -/
def c6Src : List Nat := List.replicate 170 0

/-- The arithmetic sequence `start, start+1, …` of length `n`: the ids an
`AddToQueue` batch of `n` items receives when the running counter starts at
`start`. -/
def idRange (start : Int) : Nat → List Int
  | 0 => []
  | n + 1 => start :: idRange (start + 1) n

theorem updateStateInQueue_eq_none_iff (q : List Download) (id : Int)
    (s : DownloadState) :
    updateStateInQueue q id s = Option.none ↔ ∀ d ∈ q, d.id ≠ id := by
  induction q with
  | nil => simp [updateStateInQueue]
  | cons d rest ih =>
      by_cases h : d.id = id
      · simp [updateStateInQueue, h]
      · simp [updateStateInQueue, h, Option.map_eq_none', ih]

/-- C10: the queue actor's `UpdateState` handler is partial — processing
`UpdateState(id, state)` panics (the `.unwrap()` on
`queue.iter().position(...)`, modelled as `Option.none`) exactly when no
entry with that id is in the queue; it succeeds exactly when such an entry
is present. -/
theorem updateState_panics_iff_id_absent (cfg : DownloaderConfig)
    (q : List Download) (w : Bool) (id : Int) (s : DownloadState) :
    actorStep cfg { queue := q, waiting := w } (Message.updateState id s)
        = Option.none ↔ ∀ d ∈ q, d.id ≠ id := by
  simp [actorStep, Option.map_eq_none', updateStateInQueue_eq_none_iff]

/-- C10 witness: on the empty queue (for instance after a `Done` transition
already removed the entry) `UpdateState` panics. -/
theorem updateState_panics_iff_witness :
    (actorStep DownloaderConfig.new { queue := [], waiting := false }
        (Message.updateState 5 DownloadState.post) = Option.none)
      ↔ ∀ d ∈ ([] : List Download), d.id ≠ 5 :=
  updateState_panics_iff_id_absent DownloaderConfig.new [] false 5
    DownloadState.post

theorem filter_ne_id_eq_self (q : List Download) (id : Int)
    (h : ∀ d ∈ q, d.id ≠ id) : (q.filter fun d => d.id != id) = q := by
  induction q with
  | nil => rfl
  | cons d rest ih =>
      have hd : d.id ≠ id := h d (by simp)
      simp only [List.filter_cons, bne_iff_ne, ne_eq, hd,
        not_false_eq_true, if_pos]
      rw [ih fun d' hd' => h d' (by simp [hd'])]

theorem map_update_eq_self (q : List Download) (id : Int) (s : DownloadState)
    (h : ∀ d ∈ q, d.id ≠ id) :
    (q.map fun d => if d.id = id then { d with state := s } else d) = q := by
  induction q with
  | nil => rfl
  | cons d rest ih =>
      have hd : d.id ≠ id := h d (by simp)
      simp only [List.map_cons, if_neg hd]
      rw [ih fun d' hd' => h d' (by simp [hd'])]

theorem updateStateInQueue_spec (q : List Download) (id : Int)
    (s : DownloadState) (hnd : (q.map fun d => d.id).Nodup)
    (hmem : ∃ d ∈ q, d.id = id) :
    updateStateInQueue q id s =
      some (if s = DownloadState.done
            then q.filter fun d => d.id != id
            else q.map fun d =>
                   if d.id = id then { d with state := s } else d) := by
  induction q with
  | nil => simp at hmem
  | cons d rest ih =>
      simp only [List.map_cons, List.nodup_cons, List.mem_map] at hnd
      by_cases hd : d.id = id
      · have hrest : ∀ d' ∈ rest, d'.id ≠ id := by
          intro d' hd' he
          exact hnd.1 ⟨d', hd', by rw [he, hd]⟩
        have hbne : (d.id != id) = false := by simp [hd]
        by_cases hs : s = DownloadState.done
        · simp [updateStateInQueue, hd, hs, List.filter_cons, hbne,
            filter_ne_id_eq_self rest id hrest]
        · simp [updateStateInQueue, hd, hs,
            map_update_eq_self rest id s hrest]
      · have hmem' : ∃ d' ∈ rest, d'.id = id := by
          rcases hmem with ⟨d', hd', he⟩
          rcases List.mem_cons.mp hd' with rfl | h'
          · exact absurd he hd
          · exact ⟨d', h', he⟩
        have hbne : (d.id != id) = true := by simp [hd]
        by_cases hs : s = DownloadState.done
        · subst hs
          simp [updateStateInQueue, hd, ih hnd.2 hmem',
            List.filter_cons, hbne]
        · simp [updateStateInQueue, hd, hs, ih hnd.2 hmem']

/-- C7: processing `UpdateState(id, state)` for an id present in a
well-formed queue (distinct ids) overwrites that entry's state; when the
new state is `Done` the entry is removed outright (no entry with the id
survives into later `GetDownloads` snapshots), and for any other new state
— in particular `Error` — the entry stays in place with only its state
changed, so it remains visible. -/
theorem updateState_overwrites_done_removes_error_persists
    (cfg : DownloaderConfig) (q : List Download) (w : Bool) (id : Int)
    (s : DownloadState) (hnd : (q.map fun d => d.id).Nodup)
    (hmem : ∃ d ∈ q, d.id = id) :
    actorStep cfg { queue := q, waiting := w } (Message.updateState id s) =
      some ({ queue :=
                if s = DownloadState.done
                then q.filter fun d => d.id != id
                else q.map fun d =>
                       if d.id = id then { d with state := s } else d,
              waiting := w }, []) ∧
    (∀ d ∈ (q.filter fun d => d.id != id), d.id ≠ id) ∧
    ((q.map fun d => if d.id = id then { d with state := s } else d).map
        fun d => d.id) = q.map fun d => d.id := by
  refine ⟨?_, ?_, ?_⟩
  · simp only [actorStep, updateStateInQueue_spec q id s hnd hmem,
      Option.map_some']
  · intro d hd
    have := List.of_mem_filter hd
    simpa [bne_iff_ne] using this
  · rw [List.map_map]
    apply List.map_congr_left
    intro d _
    by_cases hd : d.id = id <;> simp [Function.comp, hd]

/-- C7 witness: on the two-entry queue `c7q`, `UpdateState(1, Done)`
removes entry 1. -/
theorem updateState_overwrites_witness :
    ((c7q.map fun d => d.id).Nodup ∧ (∃ d ∈ c7q, d.id = 1)) ∧
    (actorStep DownloaderConfig.new { queue := c7q, waiting := false }
        (Message.updateState 1 DownloadState.done) =
      some ({ queue :=
                if DownloadState.done = DownloadState.done
                then c7q.filter fun d => d.id != 1
                else c7q.map fun d =>
                       if d.id = 1
                       then { d with state := DownloadState.done } else d,
              waiting := false }, []) ∧
    (∀ d ∈ (c7q.filter fun d => d.id != 1), d.id ≠ 1) ∧
    ((c7q.map fun d =>
        if d.id = 1 then { d with state := DownloadState.done } else d).map
        fun d => d.id) = c7q.map fun d => d.id) :=
  ⟨⟨by decide, by decide⟩,
   updateState_overwrites_done_removes_error_persists DownloaderConfig.new
     c7q false 1 DownloadState.done (by decide) (by decide)⟩

theorem assignIds_map_id (ds : List Download) :
    ∀ start : Int,
      ((assignIds start ds).map fun d => d.id) = idRange start ds.length := by
  induction ds with
  | nil => intro start; rfl
  | cons d rest ih =>
      intro start
      simp only [assignIds, List.map_cons, List.length_cons, idRange,
        ih (start + 1)]

theorem assignIds_states (ds : List Download) :
    ∀ start : Int, ∀ d ∈ assignIds start ds, d.state = DownloadState.none := by
  induction ds with
  | nil => intro start d hd; simp [assignIds] at hd
  | cons d0 rest ih =>
      intro start d hd
      rcases List.mem_cons.mp hd with rfl | h'
      · rfl
      · exact ih (start + 1) d h'

theorem assignIds_ids_chain (ds : List Download) :
    ∀ start : Int,
      List.Chain' (fun a b => a < b) ((assignIds start ds).map fun d => d.id) := by
  induction ds with
  | nil => intro start; simp [assignIds]
  | cons d rest ih =>
      intro start
      simp only [assignIds, List.map_cons]
      rw [List.chain'_cons']
      refine ⟨?_, ih (start + 1)⟩
      intro b hb
      cases rest with
      | nil => simp [assignIds] at hb
      | cons d' rest' =>
          simp only [assignIds, List.map_cons, List.head?_cons,
            Option.mem_def, Option.some.injEq] at hb
          omega

/-- C2 (amended): an `AddToQueue` batch received while no `GetJob` is
pending appends the batch with ids assigned sequentially STARTING AT the
current maximum id (`max(existing)`, `max(existing)+1`, …; 0-based on an
empty queue, since `max().unwrap_or(0)` and the assignment happen before
the increment), every state reset to `None`; the ids within one batch are
strictly increasing, but the first id of a batch added to a non-empty
queue equals an id already in use, so ids are not unique across the
lifetime of the queue. -/
theorem addToQueue_assigns_from_current_max (cfg : DownloaderConfig)
    (q : List Download) (ds : List Download) :
    actorStep cfg { queue := q, waiting := false } (Message.addToQueue ds) =
      some ({ queue := q ++ assignIds (queueMaxId q) ds, waiting := false },
            []) ∧
    ((assignIds (queueMaxId q) ds).map fun d => d.id)
      = idRange (queueMaxId q) ds.length ∧
    (∀ d ∈ assignIds (queueMaxId q) ds, d.state = DownloadState.none) ∧
    List.Chain' (fun a b => a < b)
      ((assignIds (queueMaxId q) ds).map fun d => d.id) :=
  ⟨by simp [actorStep], assignIds_map_id ds (queueMaxId q),
   assignIds_states ds (queueMaxId q), assignIds_ids_chain ds (queueMaxId q)⟩

/-- C2 witness: adding one item to the queue that already holds entry
`c1e0` (id 0) assigns the new item id 0 = max(existing) again. -/
theorem addToQueue_assigns_from_current_max_witness :
    actorStep DownloaderConfig.new { queue := [c1e0], waiting := false }
        (Message.addToQueue [c1d2]) =
      some ({ queue := [c1e0] ++ assignIds (queueMaxId [c1e0]) [c1d2],
              waiting := false }, []) ∧
    ((assignIds (queueMaxId [c1e0]) [c1d2]).map fun d => d.id)
      = idRange (queueMaxId [c1e0]) [c1d2].length ∧
    (∀ d ∈ assignIds (queueMaxId [c1e0]) [c1d2],
        d.state = DownloadState.none) ∧
    List.Chain' (fun a b => a < b)
      ((assignIds (queueMaxId [c1e0]) [c1d2]).map fun d => d.id) :=
  addToQueue_assigns_from_current_max DownloaderConfig.new [c1e0] [c1d2]

/-- C2 counterexample: two successive one-item `AddToQueue` batches on an
initially empty queue assign ids 0 and then 0 again (the second batch
starts at `max(existing)` = 0, not `max(existing)+1` = 1), so the ids ever
assigned are neither unique nor strictly increasing. -/
theorem addToQueue_reassigns_existing_max_id :
    (actorRun DownloaderConfig.new { queue := [], waiting := false }
        [Message.addToQueue [c1d1], Message.addToQueue [c1d2]]).map
        (fun out => out.1.queue.map fun d => d.id) = some [0, 0] ∧
    ¬ ([(0 : Int), 0].Nodup) := by
  constructor
  · decide
  · decide

theorem specChain_unfold (q : Quality) :
    specChain q = q :: (match q.fallback with
                        | some q' => specChain q'
                        | Option.none => []) := by
  cases q <;> rfl

theorem specChain_length_le (q : Quality) : (specChain q).length ≤ 4 := by
  cases q <;> decide

theorem bestMatchF_eq_specScan (files : List (FileFormat × Nat)) :
    ∀ (fuel : Nat) (q : Quality), (specChain q).length ≤ fuel →
      bestMatchF files fuel q = specScan q files := by
  intro fuel
  induction fuel with
  | zero =>
      intro q hq
      rw [specChain_unfold] at hq
      simp at hq
  | succ n ih =>
      intro q hq
      rcases htf : tryFormats files q.get_file_formats with _ | ⟨fid, f⟩
      · rcases hfb : q.fallback with _ | q'
        · have hchain : specChain q = [q] := by
            rw [specChain_unfold, hfb]
          simp [bestMatchF, htf, hfb, specScan, hchain]
        · have hchain : specChain q = q :: specChain q' := by
            rw [specChain_unfold, hfb]
          have hlen : (specChain q').length ≤ n := by
            rw [hchain] at hq
            simpa using hq
          simp [bestMatchF, htf, hfb, ih q' hlen, specScan, hchain]
      · have hchain := specChain_unfold q
        simp [bestMatchF, htf, specScan, hchain]

/-- C4: quality resolution is the deterministic ordered linear scan the
specification describes — it equals `specScan`, the scan over the fixed
tier chain starting at the configured tier (stepping down
Q320 → Q256 → Q160 → Q96) that tries each tier's formats in that tier's
fixed priority order and stops at the first format the track offers;
it returns `Option.none` (mapped to `Unavailable` by `downloadTrack`)
exactly when every tier of the chain misses; and for requested tier Q320
against a track offering only an OGG_VORBIS_160 variant it returns that
Q160 variant. -/
theorem quality_ladder_linear_scan_spec :
    (∀ (q : Quality) (files : List (FileFormat × Nat)),
        bestMatch q files = specScan q files) ∧
    (∀ (q : Quality) (files : List (FileFormat × Nat)),
        bestMatch q files = Option.none ↔
          ∀ t ∈ specChain q,
            tryFormats files t.get_file_formats = Option.none) ∧
    bestMatch Quality.q320 [(FileFormat.OGG_VORBIS_160, 5)]
      = some (5, FileFormat.OGG_VORBIS_160, Quality.q160) := by
  have href : ∀ (q : Quality) (files : List (FileFormat × Nat)),
      bestMatch q files = specScan q files := fun q files =>
    bestMatchF_eq_specScan files 4 q (specChain_length_le q)
  refine ⟨href, ?_, by decide⟩
  intro q files
  rw [href q files, specScan, List.findSome?_eq_none_iff]
  constructor
  · intro h t ht
    have := h t ht
    simpa [Option.map_eq_none'] using this
  · intro h t ht
    simp [Option.map_eq_none', h t ht]

/-- C4 witness: the linear-scan characterization evaluated at tier Q256
and a track offering only a 96kbps variant (the ladder walks down to
Q96). -/
theorem quality_ladder_linear_scan_witness :
    bestMatch Quality.q256 [(FileFormat.OGG_VORBIS_96, 9)]
      = specScan Quality.q256 [(FileFormat.OGG_VORBIS_96, 9)] :=
  quality_ladder_linear_scan_spec.1 Quality.q256 [(FileFormat.OGG_VORBIS_96, 9)]

theorem chunkLoopF_spec :
    ∀ (fuel : Nat) (src : List Nat), src.length ≤ fuel →
      (chunkLoopF fuel src).1.join = src ∧
      (chunkLoopF fuel src).2 = (chunkLoopF fuel src).1.map List.length ∧
      ∀ c ∈ (chunkLoopF fuel src).1, c ≠ [] ∧ c.length ≤ 65536 := by
  intro fuel
  induction fuel with
  | zero =>
      intro src h
      have : src = [] := List.length_eq_zero.mp (Nat.le_zero.mp h)
      subst this
      simp [chunkLoopF]
  | succ n ih =>
      intro src h
      match src with
      | [] => simp [chunkLoopF]
      | b :: rest =>
          have hlen : ((b :: rest).drop 65536).length ≤ n := by
            simp only [List.length_drop, List.length_cons]
            simp only [List.length_cons] at h
            omega
          obtain ⟨h1, h2, h3⟩ := ih _ hlen
          simp only [chunkLoopF]
          refine ⟨?_, ?_, ?_⟩
          · simp only [List.join_cons, h1, List.take_append_drop]
          · simp only [List.map_cons, h2]
          · intro c hc
            rcases List.mem_cons.mp hc with rfl | hc'
            · constructor
              · simp
              · simpa using List.length_take_le 65536 (b :: rest)
            · exact h3 c hc'

theorem chunkLoop_spec (src : List Nat) :
    (chunkLoop src).1.join = src ∧
    (chunkLoop src).2 = (chunkLoop src).1.map List.length ∧
    ∀ c ∈ (chunkLoop src).1, c ≠ [] ∧ c.length ≤ 65536 :=
  chunkLoopF_spec src.length src le_rfl

/-- C8: the streaming chunk loop (identical in `download_track_stream` and
`download_track_convert_stream`) writes to the output file exactly the
bytes each read returned, in order — the written chunks concatenate back
to the source —, yields to the caller exactly the byte count of each
written chunk, never reads more than the 64 KiB buffer per iteration
(every chunk is non-empty and at most 65536 bytes), and terminates
normally exactly when a read returns zero bytes (the exhausted source). -/
theorem chunk_loop_writes_exact_reads (src : List Nat) :
    (chunkLoop src).1.join = src ∧
    (chunkLoop src).2 = (chunkLoop src).1.map List.length ∧
    (∀ c ∈ (chunkLoop src).1, c ≠ [] ∧ c.length ≤ 65536) ∧
    chunkLoop ([] : List Nat) = ([], []) := by
  obtain ⟨h1, h2, h3⟩ := chunkLoop_spec src
  exact ⟨h1, h2, h3, rfl⟩

/-- C8 witness: the chunk-loop facts evaluated on a two-byte source. -/
theorem chunk_loop_writes_exact_reads_witness :
    (chunkLoop [5, 6]).1.join = [5, 6] ∧
    (chunkLoop [5, 6]).2 = (chunkLoop [5, 6]).1.map List.length ∧
    (∀ c ∈ (chunkLoop [5, 6]).1, c ≠ [] ∧ c.length ≤ 65536) ∧
    chunkLoop ([] : List Nat) = ([], []) :=
  chunk_loop_writes_exact_reads [5, 6]

theorem progressLoop_ok (path : String) (size : Nat) (jobId : Int) :
    ∀ (rs : List Nat) (fs : String → Bool) (read : Nat),
      progressLoop path size jobId fs read (rs.map Except.ok) =
        ((runningTotals read rs).map fun v =>
            Message.updateState jobId (DownloadState.downloading v size),
         fs, Except.ok ()) := by
  intro rs
  induction rs with
  | nil => intro fs read; rfl
  | cons r rest ih =>
      intro fs read
      simp only [List.map_cons, progressLoop, runningTotals, ih fs (read + r)]

theorem runningTotals_chain (rs : List Nat) (h : ∀ r ∈ rs, 0 < r) :
    ∀ read : Nat,
      List.Chain' (fun a b => a < b) (runningTotals read rs) := by
  induction rs with
  | nil => intro read; simp [runningTotals]
  | cons r rest ih =>
      intro read
      have hrest : ∀ r' ∈ rest, 0 < r' := fun r' hr' => h r' (by simp [hr'])
      rw [runningTotals, List.chain'_cons']
      refine ⟨?_, ih hrest (read + r)⟩
      intro b hb
      cases rest with
      | nil => simp [runningTotals] at hb
      | cons r' rest' =>
          simp only [runningTotals, List.head?_cons, Option.mem_def,
            Option.some.injEq] at hb
          have : 0 < r' := h r' (by simp)
          omega

theorem runningTotals_getLast (rs : List Nat) (h : rs ≠ []) :
    ∀ read : Nat,
      (runningTotals read rs).getLast? = some (read + rs.sum) := by
  induction rs with
  | nil => exact absurd rfl h
  | cons r rest ih =>
      intro read
      cases rest with
      | nil => simp [runningTotals]
      | cons r' rest' =>
          rw [runningTotals]
          rw [show runningTotals (read + r) (r' :: rest')
                = (read + r + r') :: runningTotals (read + r + r') rest'
              from rfl]
          rw [List.getLast?_cons_cons]
          rw [show (read + r + r') :: runningTotals (read + r + r') rest'
                = runningTotals (read + r) (r' :: rest') from rfl]
          rw [ih (by simp) (read + r)]
          simp only [List.sum_cons, Option.some.injEq]
          omega

/-- C6: for a decrypted source of `167 + P` bytes (fixed 167-byte header,
payload `P > 0`), the streaming pipeline strips the header and writes
exactly the `P` payload bytes to the output file, and the
`Downloading(read, size)` updates produced by the progress loop of
`download_track` from the yielded chunk counts carry strictly increasing
`read` values in chunk order whose last value is exactly `P`. -/
theorem progress_strictly_increasing_last_eq_payload
    (decrypted : List Nat) (P : Nat) (path : String) (size : Nat)
    (jobId : Int) (fs : String → Bool)
    (hlen : decrypted.length = 167 + P) (hP : 0 < P) :
    downloadTrackStreamRun decrypted
      = Except.ok (chunkLoop (decrypted.drop 167)) ∧
    (chunkLoop (decrypted.drop 167)).1.join = decrypted.drop 167 ∧
    ((chunkLoop (decrypted.drop 167)).1.join).length = P ∧
    (progressLoop path size jobId fs 0
        ((chunkLoop (decrypted.drop 167)).2.map Except.ok)).1
      = (runningTotals 0 (chunkLoop (decrypted.drop 167)).2).map
          (fun v => Message.updateState jobId
                      (DownloadState.downloading v size)) ∧
    List.Chain' (fun a b => a < b)
      (runningTotals 0 (chunkLoop (decrypted.drop 167)).2) ∧
    (runningTotals 0 (chunkLoop (decrypted.drop 167)).2).getLast?
      = some P := by
  obtain ⟨h1, h2, h3⟩ := chunkLoop_spec (decrypted.drop 167)
  have hdlen : (decrypted.drop 167).length = P := by
    simp [List.length_drop, hlen]
  have hjoinlen : ((chunkLoop (decrypted.drop 167)).1.join).length = P := by
    rw [h1, hdlen]
  have hpos : ∀ r ∈ (chunkLoop (decrypted.drop 167)).2, 0 < r := by
    intro r hr
    rw [h2] at hr
    rcases List.mem_map.mp hr with ⟨c, hc, rfl⟩
    have := (h3 c hc).1
    exact List.length_pos.mpr this
  have hne : (chunkLoop (decrypted.drop 167)).2 ≠ [] := by
    intro hemp
    have hchunks : (chunkLoop (decrypted.drop 167)).1 = [] := by
      rcases hch : (chunkLoop (decrypted.drop 167)).1 with _ | ⟨c, cs⟩
      · rfl
      · rw [h2, hch] at hemp
        simp at hemp
    rw [hchunks] at hjoinlen
    simp at hjoinlen
    omega
  have hsum : (chunkLoop (decrypted.drop 167)).2.sum = P := by
    rw [h2]
    have := List.length_join (chunkLoop (decrypted.drop 167)).1
    rw [hjoinlen] at this
    omega
  refine ⟨?_, h1, hjoinlen, ?_, ?_, ?_⟩
  · rw [downloadTrackStreamRun, if_neg (by omega), chunkLoop]
  · rw [progressLoop_ok]
  · exact runningTotals_chain _ hpos 0
  · rw [runningTotals_getLast _ hne 0, hsum, Nat.zero_add]

/-- C6 witness: the pipeline facts evaluated on the 170-byte synthetic
source `c6Src` (payload 3). -/
theorem progress_strictly_increasing_witness :
    (c6Src.length = 167 + 3 ∧ 0 < 3) ∧
    (downloadTrackStreamRun c6Src
        = Except.ok (chunkLoop (c6Src.drop 167)) ∧
     (chunkLoop (c6Src.drop 167)).1.join = c6Src.drop 167 ∧
     ((chunkLoop (c6Src.drop 167)).1.join).length = 3 ∧
     (progressLoop "p" 170 1 (fun _ => false) 0
         ((chunkLoop (c6Src.drop 167)).2.map Except.ok)).1
       = (runningTotals 0 (chunkLoop (c6Src.drop 167)).2).map
           (fun v => Message.updateState 1
                       (DownloadState.downloading v 170)) ∧
     List.Chain' (fun a b => a < b)
       (runningTotals 0 (chunkLoop (c6Src.drop 167)).2) ∧
     (runningTotals 0 (chunkLoop (c6Src.drop 167)).2).getLast?
       = some 3) :=
  ⟨⟨by decide, by decide⟩,
   progress_strictly_increasing_last_eq_payload c6Src 3 "p" 170 1
     (fun _ => false) (by decide) (by decide)⟩

theorem downloadTrack_already (env : DlEnv) (id path : String)
    (cfg : DownloaderConfig) (jobId : Int) (tr : STrack) (fid : Nat)
    (fmt : FileFormat) (qu : Quality)
    (hl : env.lookupTrack id = Except.ok tr) (hav : tr.available = true)
    (hbm : bestMatch cfg.quality tr.files = some (fid, fmt, qu))
    (hskip : cfg.skip_existing = true)
    (hfs : env.fs (fullPath path cfg fmt) = true) :
    downloadTrack env id path cfg jobId
      = ([], env.fs, Except.error SpotifyError.alreadyDownloaded) := by
  simp [downloadTrack, hl, hav, hbm, hskip, hfs]

/-- C3 (amended): with `skip_existing` set and a file already present at
the computed output path, `download_track` short-circuits with the
distinguished `AlreadyDownloaded` error kind before requesting the
decryption key or opening the stream (the conclusion holds for every
`audioKey`/`openEncrypted`/`streamResults` environment, none of which is
constrained by a hypothesis), and that outcome IS reported to the queue as
an `Error` state: `download_job_wrapper` treats it like any other failure,
sleeping the throttle delay and emitting
`UpdateState(id, Error("Already downloaded"))` as its only message. -/
theorem skip_existing_short_circuit_spec (jenv : JobEnv) (job : DownloadJob)
    (cfg : DownloaderConfig) (tr : STrack) (fid : Nat) (fmt : FileFormat)
    (qu : Quality)
    (h1 : jenv.requestToken = Except.ok ()) (h2 : jenv.validId = true)
    (h3 : jenv.fetchMeta = Except.ok ())
    (h4 : jenv.createDirs = Except.ok ())
    (h5 : jenv.dl.lookupTrack job.track_id = Except.ok tr)
    (h6 : tr.available = true)
    (h7 : bestMatch cfg.quality tr.files = some (fid, fmt, qu))
    (h8 : cfg.skip_existing = true)
    (h9 : jenv.dl.fs (fullPath jenv.pathStem cfg fmt) = true) :
    (downloadJob jenv job cfg).2.2
        = Except.error SpotifyError.alreadyDownloaded ∧
    (downloadJobWrapper jenv job cfg).1 =
      [Message.updateState job.id
        (DownloadState.error
          (spotifyErrorToString SpotifyError.alreadyDownloaded))] ∧
    (downloadJobWrapper jenv job cfg).2.2
      = some (throttleTimeout cfg.concurrent_downloads) := by
  have hdt := downloadTrack_already jenv.dl job.track_id jenv.pathStem cfg
    job.id tr fid fmt qu h5 h6 h7 h8 h9
  have hjob : downloadJob jenv job cfg
      = ([], jenv.dl.fs, Except.error SpotifyError.alreadyDownloaded) := by
    simp [downloadJob, h1, h2, h3, h4, hdt]
  refine ⟨by rw [hjob], ?_, ?_⟩ <;> simp [downloadJobWrapper, hjob]

/-- C3 witness: the short-circuit-and-report behaviour evaluated on the
concrete environment `c3JobEnv` where `music/song.ogg` already exists. -/
theorem skip_existing_short_circuit_witness :
    (downloadJob c3JobEnv c3Job c3Cfg).2.2
        = Except.error SpotifyError.alreadyDownloaded ∧
    (downloadJobWrapper c3JobEnv c3Job c3Cfg).1 =
      [Message.updateState c3Job.id
        (DownloadState.error
          (spotifyErrorToString SpotifyError.alreadyDownloaded))] ∧
    (downloadJobWrapper c3JobEnv c3Job c3Cfg).2.2
      = some (throttleTimeout c3Cfg.concurrent_downloads) :=
  skip_existing_short_circuit_spec c3JobEnv c3Job c3Cfg c3Track 1
    FileFormat.OGG_VORBIS_320 Quality.q320 rfl rfl rfl rfl rfl rfl
    (by decide) rfl (by decide)

/-- C3 counterexample: on the concrete environment where the output file
already exists and `skip_existing` is set, the job's final message to the
queue is an `Error` state update and the wrapper slept the throttle delay —
refuting that `AlreadyDownloaded` "is not reported to the queue as an
Error state" and "treated as a no-op success for scheduling purposes". -/
theorem already_downloaded_reported_as_error_state :
    (downloadJobWrapper c3JobEnv c3Job c3Cfg).1.getLast?
      = some (Message.updateState 7
          (DownloadState.error
            (spotifyErrorToString SpotifyError.alreadyDownloaded))) ∧
    (downloadJobWrapper c3JobEnv c3Job c3Cfg).2.2 ≠ Option.none := by
  constructor
  · decide
  · decide

theorem progressLoop_error (path : String) (size : Nat) (jobId : Int) :
    ∀ (chunks : List Nat) (fs : String → Bool) (read : Nat)
      (e : SpotifyError) (junk : List (Except SpotifyError Nat)),
      (progressLoop path size jobId fs read
          (chunks.map Except.ok ++ Except.error e :: junk)).2.2
        = Except.error e ∧
      (progressLoop path size jobId fs read
          (chunks.map Except.ok ++ Except.error e :: junk)).2.1 path
        = false := by
  intro chunks
  induction chunks with
  | nil =>
      intro fs read e junk
      simp [progressLoop]
  | cons r rest ih =>
      intro fs read e junk
      simpa [progressLoop] using ih fs (read + r) e junk

theorem downloadTrack_stream_error (env : DlEnv) (id path : String)
    (cfg : DownloaderConfig) (jobId : Int) (tr : STrack) (fid : Nat)
    (fmt : FileFormat) (qu : Quality) (size : Nat) (chunks : List Nat)
    (e : SpotifyError) (junk : List (Except SpotifyError Nat))
    (hl : env.lookupTrack id = Except.ok tr) (hav : tr.available = true)
    (hbm : bestMatch cfg.quality tr.files = some (fid, fmt, qu))
    (hguard : (cfg.skip_existing && env.fs (fullPath path cfg fmt)) = false)
    (hk : env.audioKey = Except.ok ())
    (ho : env.openEncrypted = Except.ok size)
    (hs : env.streamResults = chunks.map Except.ok ++ Except.error e :: junk) :
    (downloadTrack env id path cfg jobId).2.2 = Except.error e ∧
    (downloadTrack env id path cfg jobId).2.1 (fullPath path cfg fmt)
      = false := by
  obtain ⟨he, hf⟩ := progressLoop_error (fullPath path cfg fmt) size jobId
    chunks (fun p => decide (p = fullPath path cfg fmt) || env.fs p)
    0 e junk
  constructor <;>
    simp [downloadTrack, hl, hav, hbm, hguard, hk, ho, hs, he, hf]

/-- C5: when the stream yields a read/write error after any number of good
chunks (so after the output file was created), the partially-written output
file is deleted before the error propagates out of `download_track` — the
file is gone from the filesystem `download_job` returns —, the job fails
with that error, and the wrapper's final message to the queue is the
`Error` state update. -/
theorem stream_error_deletes_partial_file (jenv : JobEnv)
    (job : DownloadJob) (cfg : DownloaderConfig) (tr : STrack) (fid : Nat)
    (fmt : FileFormat) (qu : Quality) (size : Nat) (chunks : List Nat)
    (e : SpotifyError) (junk : List (Except SpotifyError Nat))
    (h1 : jenv.requestToken = Except.ok ()) (h2 : jenv.validId = true)
    (h3 : jenv.fetchMeta = Except.ok ())
    (h4 : jenv.createDirs = Except.ok ())
    (h5 : jenv.dl.lookupTrack job.track_id = Except.ok tr)
    (h6 : tr.available = true)
    (h7 : bestMatch cfg.quality tr.files = some (fid, fmt, qu))
    (h8 : (cfg.skip_existing
            && jenv.dl.fs (fullPath jenv.pathStem cfg fmt)) = false)
    (h9 : jenv.dl.audioKey = Except.ok ())
    (h10 : jenv.dl.openEncrypted = Except.ok size)
    (h11 : jenv.dl.streamResults
            = chunks.map Except.ok ++ Except.error e :: junk) :
    (downloadJob jenv job cfg).2.2 = Except.error e ∧
    (downloadJob jenv job cfg).2.1 (fullPath jenv.pathStem cfg fmt)
      = false ∧
    (downloadJobWrapper jenv job cfg).1.getLast?
      = some (Message.updateState job.id
          (DownloadState.error (spotifyErrorToString e))) ∧
    (downloadJobWrapper jenv job cfg).2.1 (fullPath jenv.pathStem cfg fmt)
      = false := by
  obtain ⟨hdte, hdtf⟩ := downloadTrack_stream_error jenv.dl job.track_id
    jenv.pathStem cfg job.id tr fid fmt qu size chunks e junk h5 h6 h7 h8
    h9 h10 h11
  have hjob : downloadJob jenv job cfg
      = ((downloadTrack jenv.dl job.track_id jenv.pathStem cfg job.id).1,
         (downloadTrack jenv.dl job.track_id jenv.pathStem cfg job.id).2.1,
         Except.error e) := by
    simp [downloadJob, h1, h2, h3, h4, hdte]
  refine ⟨by rw [hjob], ?_, ?_, ?_⟩
  · rw [hjob]
    exact hdtf
  · simp [downloadJobWrapper, hjob, List.getLast?_concat]
  · simp only [downloadJobWrapper, hjob]
    exact hdtf

/-- C5 witness: the deletion-and-error behaviour evaluated on the concrete
environment `c5JobEnv` whose stream fails after one 5-byte chunk. -/
theorem stream_error_deletes_partial_file_witness :
    (downloadJob c5JobEnv c3Job c3Cfg).2.2
        = Except.error (SpotifyError.error "io") ∧
    (downloadJob c5JobEnv c3Job c3Cfg).2.1
        (fullPath c5JobEnv.pathStem c3Cfg FileFormat.OGG_VORBIS_320)
      = false ∧
    (downloadJobWrapper c5JobEnv c3Job c3Cfg).1.getLast?
      = some (Message.updateState c3Job.id
          (DownloadState.error
            (spotifyErrorToString (SpotifyError.error "io")))) ∧
    (downloadJobWrapper c5JobEnv c3Job c3Cfg).2.1
        (fullPath c5JobEnv.pathStem c3Cfg FileFormat.OGG_VORBIS_320)
      = false :=
  stream_error_deletes_partial_file c5JobEnv c3Job c3Cfg c3Track 1
    FileFormat.OGG_VORBIS_320 Quality.q320 500 [5]
    (SpotifyError.error "io") [] rfl rfl rfl rfl rfl rfl (by decide)
    (by decide) rfl rfl rfl

theorem log2Fuel_bracket :
    ∀ (fuel n : Nat), 0 < n → n < 2 ^ fuel →
      2 ^ log2Fuel fuel n ≤ n ∧ n < 2 ^ (log2Fuel fuel n + 1) := by
  intro fuel
  induction fuel with
  | zero =>
      intro n h0 h1
      simp only [pow_zero] at h1
      omega
  | succ m ih =>
      intro n h0 h1
      by_cases h2 : n < 2
      · have hn1 : n = 1 := by omega
        subst hn1
        simp [log2Fuel]
      · have hdivpos : 0 < n / 2 := Nat.div_pos (by omega) (by norm_num)
        have hdivlt : n / 2 < 2 ^ m := by
          rw [Nat.div_lt_iff_lt_mul (by norm_num : 0 < 2)]
          rw [pow_succ] at h1
          exact h1
        obtain ⟨hlo, hhi⟩ := ih (n / 2) hdivpos hdivlt
        simp only [log2Fuel, if_neg (by omega : ¬ n < 2)]
        constructor
        · calc 2 ^ (log2Fuel m (n / 2) + 1)
              = 2 ^ log2Fuel m (n / 2) * 2 := by rw [pow_succ]
            _ ≤ n / 2 * 2 := by omega
            _ ≤ n := Nat.div_mul_le_self n 2
        · calc n < (n / 2 + 1) * 2 := by omega
            _ ≤ 2 ^ (log2Fuel m (n / 2) + 1) * 2 := by
                have : n / 2 + 1 ≤ 2 ^ (log2Fuel m (n / 2) + 1) := hhi
                omega
            _ = 2 ^ (log2Fuel m (n / 2) + 1 + 1) := by ring

theorem natLog2_bracket (n : Nat) (h0 : 0 < n) (h1 : n < 2 ^ 128) :
    2 ^ natLog2 n ≤ n ∧ n < 2 ^ (natLog2 n + 1) :=
  log2Fuel_bracket 128 n h0 h1

theorem natLog2_le (n k : Nat) (h0 : 0 < n) (h128 : n < 2 ^ 128)
    (h : n < 2 ^ (k + 1)) : natLog2 n ≤ k := by
  obtain ⟨hlo, _⟩ := natLog2_bracket n h0 h128
  by_contra hgt
  have : 2 ^ (k + 1) ≤ 2 ^ natLog2 n :=
    Nat.pow_le_pow_right (by norm_num) (by omega)
  omega

theorem le_natLog2 (n k : Nat) (h128 : n < 2 ^ 128) (h : 2 ^ k ≤ n) :
    k ≤ natLog2 n := by
  have h0 : 0 < n := lt_of_lt_of_le (Nat.pos_pow_of_pos k (by norm_num)) h
  obtain ⟨_, hhi⟩ := natLog2_bracket n h0 h128
  by_contra hgt
  have : 2 ^ (natLog2 n + 1) ≤ 2 ^ k :=
    Nat.pow_le_pow_right (by norm_num) (by omega)
  omega

theorem f32round_small (x : Nat) (h : x < 2 ^ 24) : f32round x = x := by
  unfold f32round
  rw [if_pos h]

theorem f32round_eq_self_of_dvd (x : Nat) (h24 : 2 ^ 24 ≤ x)
    (h128 : x < 2 ^ 128) (hdvd : 2 ^ (natLog2 x - 23) ∣ x) :
    f32round x = x := by
  have hL : 24 ≤ natLog2 x := le_natLog2 x 24 h128 h24
  have hu2 : 2 ≤ 2 ^ (natLog2 x - 23) := by
    calc (2 : Nat) = 2 ^ 1 := (pow_one 2).symm
      _ ≤ 2 ^ (natLog2 x - 23) :=
          Nat.pow_le_pow_right (by norm_num) (by omega)
  have hr : x % 2 ^ (natLog2 x - 23) = 0 := Nat.mod_eq_zero_of_dvd hdvd
  have hq : x / 2 ^ (natLog2 x - 23) * 2 ^ (natLog2 x - 23) = x :=
    Nat.div_mul_cancel hdvd
  simp only [f32round, if_neg (by omega : ¬ x < 2 ^ 24)]
  rw [hr, if_pos (by omega : 0 < 2 ^ (natLog2 x - 23) / 2)]
  exact hq

theorem throttle_exact (n : Nat) (h : n ≤ 134218) :
    throttleTimeout n = 1000 * n := by
  have hp24 : (2 : Nat) ^ 24 = 16777216 := by norm_num
  have hp27 : (2 : Nat) ^ 27 = 134217728 := by norm_num
  have hp28 : (2 : Nat) ^ 28 = 268435456 := by norm_num
  have hp64 : (2 : Nat) ^ 64 = 18446744073709551616 := by norm_num
  have h1 : f32round n = n := f32round_small n (by omega)
  rw [throttleTimeout, h1]
  by_cases h2 : 1000 * n < 2 ^ 24
  · rw [f32round_small _ h2]
    exact Nat.min_eq_left (by omega)
  · have h24 : 2 ^ 24 ≤ 1000 * n := by omega
    have h128 : 1000 * n < 2 ^ 128 := by
      have : (2 : Nat) ^ 28 ≤ 2 ^ 128 :=
        Nat.pow_le_pow_right (by norm_num) (by norm_num)
      omega
    have hup : 1000 * n < 2 ^ 28 := by omega
    have hLle : natLog2 (1000 * n) ≤ 27 :=
      natLog2_le (1000 * n) 27 (by omega) h128 (by omega)
    have hdvd : 2 ^ (natLog2 (1000 * n) - 23) ∣ 1000 * n := by
      by_cases hc : natLog2 (1000 * n) ≤ 26
      · have h8 : (8 : Nat) ∣ 1000 * n := ⟨125 * n, by ring⟩
        have hpow : (2 : Nat) ^ (natLog2 (1000 * n) - 23) ∣ 2 ^ 3 :=
          pow_dvd_pow 2 (by omega)
        exact dvd_trans (by simpa using hpow) h8
      · have hL27 : natLog2 (1000 * n) = 27 := by omega
        have hge : 2 ^ 27 ≤ 1000 * n := by
          have := (natLog2_bracket (1000 * n) (by omega) h128).1
          rw [hL27] at this
          exact this
        have hn : n = 134218 := by omega
        subst hn
        rw [hL27]
        exact ⟨8388625, by norm_num⟩
    rw [f32round_eq_self_of_dvd _ h24 h128 hdvd]
    exact Nat.min_eq_left (by omega)

/-- C9 (amended): for every failed download job whose configured
`concurrent_downloads` is at most 134218, the wrapper sleeps exactly
`(60000 / 60) × concurrent_downloads = 1000 × concurrent_downloads`
milliseconds before emitting the `Error` update; the bound is forced by the
binary32 arithmetic of the source — the first limit whose product
`1000 × N` is not representable in `f32` is `N = 134219` (see the
counterexample). -/
theorem throttle_delay_exact_below_f32_rounding_threshold
    (jenv : JobEnv) (job : DownloadJob) (cfg : DownloaderConfig)
    (e : SpotifyError) (hn : cfg.concurrent_downloads ≤ 134218)
    (hfail : (downloadJob jenv job cfg).2.2 = Except.error e) :
    (downloadJobWrapper jenv job cfg).2.2
      = some (1000 * cfg.concurrent_downloads) := by
  simp only [downloadJobWrapper, hfail]
  rw [throttle_exact cfg.concurrent_downloads hn]

/-- C9 witness: a failing job under `concurrent_downloads = 2` sleeps
exactly 2000 ms. -/
theorem throttle_delay_exact_witness :
    (c3Cfg.concurrent_downloads ≤ 134218 ∧
     (downloadJob c9JobEnv c3Job c3Cfg).2.2
        = Except.error (SpotifyError.error "network")) ∧
    (downloadJobWrapper c9JobEnv c3Job c3Cfg).2.2
      = some (1000 * c3Cfg.concurrent_downloads) :=
  ⟨⟨by decide, rfl⟩,
   throttle_delay_exact_below_f32_rounding_threshold c9JobEnv c3Job c3Cfg
     (SpotifyError.error "network") (by decide) rfl⟩

/-- C9 counterexample: with `concurrent_downloads = 134219` a failed job
sleeps 134219008 ms, not the 134219000 ms the claim's exact formula
`(60000 / 60) × concurrency_limit` demands — `1000 × 134219` is rounded by
the `f32` arithmetic of `download_job_wrapper` (ties-to-even at the
134217728..268435456 binade, whose unit in the last place is 16). -/
theorem throttle_delay_f32_rounding_counterexample :
    (downloadJob c9JobEnv c3Job c9Cfg).2.2
        = Except.error (SpotifyError.error "network") ∧
    (downloadJobWrapper c9JobEnv c3Job c9Cfg).2.2 = some 134219008 ∧
    (134219008 : Nat) ≠ 1000 * 134219 := by
  refine ⟨rfl, ?_, by norm_num⟩
  decide

theorem getElem?_some_lt_length {α : Type} (l : List α) (i : Nat) (a : α)
    (h : l[i]? = some a) : i < l.length := by
  by_contra h'
  rw [List.getElem?_eq_none (by omega)] at h
  cases h

theorem length_eraseIdx_add_one {α : Type} :
    ∀ (l : List α) (i : Nat), i < l.length →
      (l.eraseIdx i).length + 1 = l.length := by
  intro l
  induction l with
  | nil => intro i h; simp at h
  | cons a t ih =>
      intro i h
      cases i with
      | zero => simp [List.eraseIdx]
      | succ j =>
          simp only [List.eraseIdx_cons_succ, List.length_cons]
          rw [ih j (by simpa using h)]

theorem c1_trace : Reachable c1Cfg c1Final := by
  have h1 : Step c1Cfg sysInit c1S1 :=
    Step.enqueue sysInit [c1d1, c1d2, c1d3]
  have h2 : Step c1Cfg c1S1 c1S2 :=
    Step.actorRecv c1S1 (Message.addToQueue [c1d1, c1d2, c1d3]) []
      { queue := [c1e0, c1e1, c1e2], waiting := false } [] Option.none
      rfl rfl rfl
  have h3 : Step c1Cfg c1S2 c1S3 := Step.askJob c1S2 rfl
  have h4 : Step c1Cfg c1S3 c1S4 :=
    Step.actorRecv c1S3 Message.getJob []
      { queue := [c1e0L, c1e1, c1e2], waiting := false }
      [ActorOutput.job c1j0 c1Cfg] (some c1j0) rfl rfl rfl
  have h5 : Step c1Cfg c1S4 c1S5 :=
    Step.poolRecvRun c1S4 c1j0 [DownloadState.done] rfl rfl (by decide)
  have h6 : Step c1Cfg c1S5 c1S6 := Step.askJob c1S5 rfl
  have h7 : Step c1Cfg c1S6 c1S7 :=
    Step.actorRecv c1S6 Message.getJob []
      { queue := [c1e0L, c1e1L, c1e2], waiting := false }
      [ActorOutput.job c1j1 c1Cfg] (some c1j1) rfl rfl rfl
  have h8 : Step c1Cfg c1S7 c1S8 :=
    Step.poolRecvRun c1S7 c1j1 [DownloadState.done] rfl rfl (by decide)
  have h9 : Step c1Cfg c1S8 c1S9 := Step.askJob c1S8 rfl
  have h10 : Step c1Cfg c1S9 c1S10 :=
    Step.actorRecv c1S9 Message.getJob []
      { queue := [c1e0L, c1e1L, c1e2L], waiting := false }
      [ActorOutput.job c1j2 c1Cfg] (some c1j2) rfl rfl rfl
  have h11 : Step c1Cfg c1S10 c1Final :=
    Step.poolRecvOverflow c1S10 c1j2 rfl rfl (by decide)
  exact ((((((((((Relation.ReflTransGen.refl.tail h1).tail h2).tail
    h3).tail h4).tail h5).tail h6).tail h7).tail h8).tail h9).tail
    h10).tail h11

/-- C1 counterexample: with `concurrent_downloads = 2`, after enqueueing 3
jobs the system reaches (by the real eager-pull behaviour of
`download_loop`) a state in which 3 queue entries are in
`Lock`/`Downloading`/`Post` — exceeding the limit 2 — and 0 entries remain
in `None`: the third job was locked into the pool's overflow buffer
immediately instead of staying `None` until a slot frees. -/
theorem lockish_count_can_exceed_limit :
    Reachable c1Cfg c1Final ∧
    c1Cfg.concurrent_downloads = 2 ∧
    countActive c1Final.actor.queue = 3 ∧
    countNone c1Final.actor.queue = 0 :=
  ⟨c1_trace, by decide, by decide, by decide⟩

/-- C1 (amended): what the code actually bounds by `concurrent_downloads`
is the number of concurrently executing job tasks — in every reachable
state of the queue/worker system, for every configuration,
`tasks.length ≤ concurrent_downloads`.  Queue entries in `Lock` are NOT so
bounded: enqueuing 3 jobs with limit 2 reaches a state with exactly 2
running tasks, 1 job in the overflow buffer, all 3 entries `Lock` and none
left in `None`. -/
theorem running_tasks_le_limit_and_overflow_scenario :
    (∀ (cfg : DownloaderConfig) (s : SysState), Reachable cfg s →
        s.tasks.length ≤ cfg.concurrent_downloads) ∧
    (Reachable c1Cfg c1Final ∧ c1Final.tasks.length = 2 ∧
     c1Final.overflow.length = 1 ∧ countActive c1Final.actor.queue = 3 ∧
     countNone c1Final.actor.queue = 0) := by
  constructor
  · intro cfg s h
    have h' : Relation.ReflTransGen (Step cfg) sysInit s := h
    clear h
    induction h' with
    | refl => simp [sysInit]
    | tail hst hstep ih =>
        rename_i b c
        cases hstep with
        | enqueue ds => exact ih
        | askDownloads => exact ih
        | askJob h => exact ih
        | actorRecv m rest st' outs chan' hm ha hc => exact ih
        | poolRecvRun j script hj hp hlt =>
            show (b.tasks ++ [RunnerTask.mk j.id script]).length
              ≤ cfg.concurrent_downloads
            rw [List.length_append]
            simp only [List.length_cons, List.length_nil]
            omega
        | poolRecvOverflow j hj hp hge => exact ih
        | taskEmit i t upd rest ht hs =>
            show (b.tasks.set i (RunnerTask.mk t.id rest)).length
              ≤ cfg.concurrent_downloads
            rw [List.length_set]
            exact ih
        | taskDoneIdle i t ht hs ho =>
            show (b.tasks.eraseIdx i).length ≤ cfg.concurrent_downloads
            have hi := getElem?_some_lt_length b.tasks i t ht
            have hl := length_eraseIdx_add_one b.tasks i hi
            omega
        | taskDonePop i t j orest script ht hs ho =>
            show (b.tasks.eraseIdx i ++ [RunnerTask.mk j.id script]).length
              ≤ cfg.concurrent_downloads
            have hi := getElem?_some_lt_length b.tasks i t ht
            have hl := length_eraseIdx_add_one b.tasks i hi
            rw [List.length_append]
            simp only [List.length_cons, List.length_nil]
            omega
  · exact ⟨c1_trace, by decide, by decide, by decide, by decide⟩

/-- C1 witness: the running-task bound applied to the initial state. -/
theorem running_tasks_le_limit_witness :
    sysInit.tasks.length ≤ c1Cfg.concurrent_downloads :=
  running_tasks_le_limit_and_overflow_scenario.1 c1Cfg sysInit
    Relation.ReflTransGen.refl

end DownOnSpot
